import Mathlib

/-!
Verification of the derivation data model and driver↔verifier exchange
protocol implemented in `src/integration/llm_proof_driver.py`.

The Python driver is shallowly embedded: pure formatting and mapping code
becomes Lean functions over `String` and `List`; the places where the
Python raises an exception become `Except` values whose error constructors
carry exactly the data interpolated into the corresponding Python error
message.  External library calls (`json.loads`, `float`) are abstracted as
explicit parameters or already-parsed values, noted at each definition.
-/

/-- Embeds the frozen dataclass `ProofStep` (lines 47-50 of
`llm_proof_driver.py`): an immutable pair of a formula string and a rule
(justification) string. -/
structure ProofStep where
  formula : String
  rule : String
deriving DecidableEq, Repr

/-- A raw `proof_steps` item as delivered by the generation backend or the
stdin fixture: a JSON object in which the keys "formula" and "rule" may
each be present or absent.  `none` models an absent key. -/
structure RawStep where
  formula : Option String
  rule : Option String
deriving DecidableEq, Repr

/-- The decoded oracle reply object, restricted to the two keys the driver
reads (`checker_result.get("valid", False)` and
`checker_result.get("error")` in `main`, lines 195-199).  `none` models an
absent key. -/
structure OraclePayload where
  valid : Option Bool
  error : Option String
deriving DecidableEq, Repr

/-- The typed verdict the driver extracts from an oracle reply: a boolean
validity plus an optional diagnostic string. -/
structure VerificationOutcome where
  valid : Bool
  error : Option String
deriving DecidableEq, Repr

/-- The error outcomes of the embedded driver code.  Each constructor
corresponds to one `raise` site in `llm_proof_driver.py` and carries the
data the Python interpolates into the raised message:
* `keyError k`: `item["formula"]` with the key absent (lines 123 and 147)
  raises a Python KeyError naming the key "formula";
* `verifierExecutionError rc stderr`: line 170,
  `RuntimeError(f"Proof verifier exited with code {rc}: {stderr}")`;
* `emptyOracleOutput`: line 176,
  `RuntimeError("Proof verifier produced no output.")`;
* `oracleProtocolError raw`: line 180,
  `RuntimeError(f"Failed to parse verifier output {raw}: ...")`. -/
inductive DriverError where
  | keyError (key : String)
  | verifierExecutionError (returncode : Int) (stderr : String)
  | emptyOracleOutput
  | oracleProtocolError (raw : String)
deriving DecidableEq, Repr

/-- Embeds the request-encoding prefix of `call_proof_checker`
(lines 151-156): build `payload_lines` starting from the CONCLUSION line,
append one PREMISE line per premise, append one STEP line per step, then
join with a newline and add a trailing newline.  The Python `for` loops
that `append` to `payload_lines` are embedded as left folds that append
one element at a time. -/
def call_proof_checker_payload (premises : List String) (conclusion : String)
    (steps : List ProofStep) : String :=
  let payload_lines := ["CONCLUSION|" ++ conclusion]
  let payload_lines := premises.foldl
    (fun acc premise => acc ++ ["PREMISE|" ++ premise]) payload_lines
  let payload_lines := steps.foldl
    (fun acc step => acc ++ ["STEP|" ++ step.formula ++ "||" ++ step.rule]) payload_lines
  String.intercalate "\n" payload_lines ++ "\n"

/-- Embeds Python `str.strip()` with no argument: remove leading and
trailing whitespace characters.  Implemented by dropping whitespace from
both ends of the character list. -/
def pyStrip (s : String) : String :=
  String.mk (((s.data.dropWhile Char.isWhitespace).reverse.dropWhile Char.isWhitespace).reverse)

/-- Embeds the result handling of `call_proof_checker` (lines 169-180),
as a function of the subordinate process outcome.  `returncode`, `stdout`
and `stderr` are the fields of the completed process; `json_loads` stands
for the standard-library JSON parser, returning `none` exactly when
`json.loads` would raise `JSONDecodeError`.  Python `str.strip()` is
embedded as `pyStrip`, and `if not output` as an emptiness test on the
stripped output. -/
def call_proof_checker_result (returncode : Int) (stdout stderr : String)
    (json_loads : String → Option OraclePayload) : Except DriverError OraclePayload :=
  if returncode ≠ 0 then
    Except.error (DriverError.verifierExecutionError returncode (pyStrip stderr))
  else
    let output := pyStrip stdout
    if output = "" then
      Except.error DriverError.emptyOracleOutput
    else
      match json_loads output with
      | some result => Except.ok result
      | none => Except.error (DriverError.oracleProtocolError output)

/-- Embeds the verdict extraction performed by `main` on a decoded oracle
reply (lines 195-199): `checker_result.get("valid", False)` and
`checker_result.get("error")`. -/
def decode_outcome (checker_result : OraclePayload) : VerificationOutcome :=
  { valid := checker_result.valid.getD false
    error := checker_result.error }

/-- Embeds the per-item `ProofStep` construction shared by lines 123 and
147: `ProofStep(formula=item["formula"], rule=item.get("rule", ""))`.
An absent "formula" key makes `item["formula"]` raise `KeyError`; an
absent "rule" key defaults to the empty string via `dict.get`. -/
def parse_step (item : RawStep) : Except DriverError ProofStep :=
  match item.formula with
  | none => Except.error (DriverError.keyError "formula")
  | some f => Except.ok (ProofStep.mk f (item.rule.getD ""))

/-- Embeds the step-list construction of `call_llm` (line 123): the list
comprehension over `parsed["proof_steps"]`, which fails at the first item
lacking a "formula" key. -/
def call_llm_steps (proof_steps : List RawStep) : Except DriverError (List ProofStep) :=
  proof_steps.mapM (fun item =>
    match item.formula with
    | none => Except.error (DriverError.keyError "formula")
    | some f => Except.ok (ProofStep.mk f (item.rule.getD "")))

/-- Embeds the step-list construction of `load_steps_from_stdin`
(line 147): the identical list comprehension over `parsed["proof_steps"]`
applied to the payload read from standard input in dry-run mode. -/
def load_steps_from_stdin_steps (proof_steps : List RawStep) : Except DriverError (List ProofStep) :=
  proof_steps.mapM (fun item =>
    match item.formula with
    | none => Except.error (DriverError.keyError "formula")
    | some f => Except.ok (ProofStep.mk f (item.rule.getD "")))

/-- Embeds line 26, `REQUEST_TIMEOUT = float(os.environ.get("OPENAI_TIMEOUT", "180"))`:
the configured request timeout in seconds.  The standard-library `float`
conversion is abstracted: the environment override is taken as an
already-parsed rational, `none` meaning the variable is unset. -/
def REQUEST_TIMEOUT (openai_timeout_env : Option ℚ) : ℚ :=
  openai_timeout_env.getD 180

/-- Embeds the timeout argument `call_llm` actually passes to
`urllib.request.urlopen` at line 113: the literal `timeout=120`. -/
def call_llm_urlopen_timeout : ℚ := 120

theorem foldl_append_singleton {α β : Type} (f : α → β) (l : List α) (init : List β) :
    l.foldl (fun acc x => acc ++ [f x]) init = init ++ l.map f := by
  induction l generalizing init with
  | nil => simp
  | cons x xs ih => simp [List.foldl_cons, ih]

theorem call_proof_checker_payload_eq (premises : List String) (conclusion : String)
    (steps : List ProofStep) :
    call_proof_checker_payload premises conclusion steps =
      String.intercalate "\n"
        (("CONCLUSION|" ++ conclusion) ::
          (premises.map (fun premise => "PREMISE|" ++ premise) ++
            steps.map (fun step => "STEP|" ++ step.formula ++ "||" ++ step.rule))) ++ "\n" := by
  unfold call_proof_checker_payload
  dsimp only
  rw [foldl_append_singleton, foldl_append_singleton]
  simp [List.append_assoc]

/-- C1: for every derivation, the request encoder emits exactly one
CONCLUSION line first, then one PREMISE line per premise in the given
order, then one STEP line per step in the given order, joined by newlines
with a trailing newline; the concrete section-8 derivation encodes to
exactly the six lines shown there, and with zero premises the output
contains the CONCLUSION line and zero PREMISE lines. -/
theorem call_proof_checker_encodes_request :
    (∀ (premises : List String) (conclusion : String) (steps : List ProofStep),
      call_proof_checker_payload premises conclusion steps =
        String.intercalate "\n"
          (("CONCLUSION|" ++ conclusion) ::
            (premises.map (fun premise => "PREMISE|" ++ premise) ++
              steps.map (fun step => "STEP|" ++ step.formula ++ "||" ++ step.rule))) ++ "\n") ∧
    call_proof_checker_payload ["P → Q", "P"] "Q"
        [ProofStep.mk "P → Q" "Premise", ProofStep.mk "P" "Premise", ProofStep.mk "Q" "→e 1,2"] =
      "CONCLUSION|Q\nPREMISE|P → Q\nPREMISE|P\nSTEP|P → Q||Premise\nSTEP|P||Premise\nSTEP|Q||→e 1,2\n" ∧
    (∀ (conclusion : String) (steps : List ProofStep),
      call_proof_checker_payload [] conclusion steps =
        String.intercalate "\n"
          (("CONCLUSION|" ++ conclusion) ::
            steps.map (fun step => "STEP|" ++ step.formula ++ "||" ++ step.rule)) ++ "\n") := by
  refine ⟨call_proof_checker_payload_eq, by rfl, fun conclusion steps => ?_⟩
  simpa using call_proof_checker_payload_eq [] conclusion steps

/-- C2 counterexample: a derivation whose step fields contain the
separator character is serialized with no error of any kind: the encoder
returns an output string with the pipes embedded verbatim, and two
distinct derivations collide on byte-identical requests, so the encoder
does silently emit a corrupted request instead of failing fast. -/
theorem encoder_emits_corrupted_request :
    ProofStep.mk "A|" "B" ≠ ProofStep.mk "A" "|B" ∧
    call_proof_checker_payload [] "C" [ProofStep.mk "A|" "B"] = "CONCLUSION|C\nSTEP|A|||B\n" ∧
    call_proof_checker_payload [] "C" [ProofStep.mk "A" "|B"] = "CONCLUSION|C\nSTEP|A|||B\n" :=
  ⟨by decide, by rfl, by rfl⟩

/-- C2 (amended): the request encoder performs no separator check and
never fails: every derivation, including one whose formula or
justification contains the wire separator characters, is serialized to an
output string with both fields embedded verbatim between the separators. -/
theorem encoder_serializes_separators_verbatim (conclusion f r : String) :
    call_proof_checker_payload [] conclusion [ProofStep.mk f r] =
      "CONCLUSION|" ++ conclusion ++ "\n" ++ "STEP|" ++ f ++ "||" ++ r ++ "\n" := by
  rw [call_proof_checker_payload_eq]
  simp [String.intercalate, String.intercalate.go, String.append_assoc]
  rw [← String.append_assoc "\n" "STEP|" (f ++ ("||" ++ (r ++ "\n")))]
  rfl

/-- C3: a non-zero oracle exit status makes the verification adapter fail
with the verifier-execution error carrying the stripped diagnostic-stream
content, regardless of what the oracle wrote on stdout; the run never
yields a decoded payload, so the outcome is distinct from a zero-exit
valid-false verdict. -/
theorem nonzero_exit_raises_verifier_execution_error
    (returncode : Int) (stdout stderr : String)
    (json_loads : String → Option OraclePayload) (h : returncode ≠ 0) :
    call_proof_checker_result returncode stdout stderr json_loads =
      Except.error (DriverError.verifierExecutionError returncode (pyStrip stderr)) ∧
    (call_proof_checker_result returncode stdout stderr json_loads).isOk = false := by
  simp [call_proof_checker_result, h, Except.isOk, Except.toBool]

/-- C3 witness: exit code 1, with stdout a well-formed valid-true payload
that the supplied parser does accept, still yields the execution error
carrying the stderr content. -/
theorem nonzero_exit_raises_verifier_execution_error_witness :
    (1 : Int) ≠ 0 ∧
    (call_proof_checker_result 1 "\x7b\"valid\": true\x7d" "java crashed"
        (fun s => if s = "\x7b\"valid\": true\x7d" then some (OraclePayload.mk (some true) none) else none) =
      Except.error (DriverError.verifierExecutionError 1 "java crashed") ∧
    (call_proof_checker_result 1 "\x7b\"valid\": true\x7d" "java crashed"
        (fun s => if s = "\x7b\"valid\": true\x7d" then some (OraclePayload.mk (some true) none) else none)).isOk = false) :=
  ⟨by decide,
    nonzero_exit_raises_verifier_execution_error 1 "\x7b\"valid\": true\x7d" "java crashed"
      (fun s => if s = "\x7b\"valid\": true\x7d" then some (OraclePayload.mk (some true) none) else none)
      (by decide)⟩

/-- C4: a zero oracle exit status with empty or whitespace-only output
makes the verification adapter fail with the empty-oracle-output error; it
never yields a decoded payload, so empty output is never mapped to a
valid-false outcome. -/
theorem empty_output_raises_empty_oracle_output
    (stdout stderr : String) (json_loads : String → Option OraclePayload)
    (h : pyStrip stdout = "") :
    call_proof_checker_result 0 stdout stderr json_loads =
      Except.error DriverError.emptyOracleOutput ∧
    (call_proof_checker_result 0 stdout stderr json_loads).isOk = false := by
  simp [call_proof_checker_result, h, Except.isOk, Except.toBool]

/-- C4 witness: whitespace-only stdout with exit code 0 yields the
empty-oracle-output error. -/
theorem empty_output_raises_empty_oracle_output_witness :
    pyStrip "  \n" = "" ∧
    (call_proof_checker_result 0 "  \n" "" (fun _ => none) =
      Except.error DriverError.emptyOracleOutput ∧
    (call_proof_checker_result 0 "  \n" "" (fun _ => none)).isOk = false) :=
  ⟨by decide, empty_output_raises_empty_oracle_output "  \n" "" (fun _ => none) (by decide)⟩

/-- C5: a zero oracle exit status with non-empty but non-parseable output
makes the verification adapter fail with the oracle-protocol error
carrying the stripped raw output content; it never yields a decoded
payload, so unparseable output is never mapped to a valid-false outcome. -/
theorem unparseable_output_raises_oracle_protocol_error
    (stdout stderr : String) (json_loads : String → Option OraclePayload)
    (h1 : pyStrip stdout ≠ "") (h2 : json_loads (pyStrip stdout) = none) :
    call_proof_checker_result 0 stdout stderr json_loads =
      Except.error (DriverError.oracleProtocolError (pyStrip stdout)) ∧
    (call_proof_checker_result 0 stdout stderr json_loads).isOk = false := by
  simp [call_proof_checker_result, h1, h2, Except.isOk, Except.toBool]

/-- C5 witness: exit code 0 with output the parser rejects yields the
protocol error carrying that output. -/
theorem unparseable_output_raises_oracle_protocol_error_witness :
    pyStrip "certainly not json" ≠ "" ∧
    (call_proof_checker_result 0 "certainly not json" "" (fun _ => none) =
      Except.error (DriverError.oracleProtocolError (pyStrip "certainly not json")) ∧
    (call_proof_checker_result 0 "certainly not json" "" (fun _ => none)).isOk = false) :=
  ⟨by decide,
    unparseable_output_raises_oracle_protocol_error "certainly not json" "" (fun _ => none)
      (by decide) (by rfl)⟩

/-- C6: for every well-formed oracle reply payload (zero exit, non-empty
output the parser accepts), the adapter returns that payload and the
driver decodes it to an outcome whose valid equals the payload valid field
defaulting to false when absent, and whose error is the payload error
field verbatim; in particular a valid-true reply decodes to a true outcome
with no error, and a valid-false reply with the diagnostic
"line 3 cites unknown reference" decodes to false with exactly that
string. -/
theorem wellformed_reply_decodes_valid_and_error
    (stdout stderr : String) (json_loads : String → Option OraclePayload)
    (payload : OraclePayload)
    (h1 : pyStrip stdout ≠ "") (h2 : json_loads (pyStrip stdout) = some payload) :
    call_proof_checker_result 0 stdout stderr json_loads = Except.ok payload ∧
    (decode_outcome payload).valid = payload.valid.getD false ∧
    (decode_outcome payload).error = payload.error ∧
    decode_outcome (OraclePayload.mk (some true) none) = VerificationOutcome.mk true none ∧
    decode_outcome (OraclePayload.mk (some false) (some "line 3 cites unknown reference")) =
      VerificationOutcome.mk false (some "line 3 cites unknown reference") := by
  refine ⟨?_, rfl, rfl, rfl, rfl⟩
  simp [call_proof_checker_result, h1, h2]

/-- C6 witness: a concrete valid-true reply is returned as a payload and
decodes to a true outcome with no error. -/
theorem wellformed_reply_decodes_valid_and_error_witness :
    pyStrip "\x7b\"valid\": true\x7d" ≠ "" ∧
    (call_proof_checker_result 0 "\x7b\"valid\": true\x7d" ""
        (fun s => if s = "\x7b\"valid\": true\x7d" then some (OraclePayload.mk (some true) none) else none) =
      Except.ok (OraclePayload.mk (some true) none) ∧
    (decode_outcome (OraclePayload.mk (some true) none)).valid = (some true).getD false ∧
    (decode_outcome (OraclePayload.mk (some true) none)).error = none ∧
    decode_outcome (OraclePayload.mk (some true) none) = VerificationOutcome.mk true none ∧
    decode_outcome (OraclePayload.mk (some false) (some "line 3 cites unknown reference")) =
      VerificationOutcome.mk false (some "line 3 cites unknown reference")) :=
  ⟨by decide,
    wellformed_reply_decodes_valid_and_error "\x7b\"valid\": true\x7d" ""
      (fun s => if s = "\x7b\"valid\": true\x7d" then some (OraclePayload.mk (some true) none) else none)
      (OraclePayload.mk (some true) none) (by decide) (by decide)⟩

/-- C7 counterexample: with the non-empty premises list ["P"], a
generation response whose proof_steps omits the premise line is accepted
verbatim: the adapter raises no error of any kind and injects no premise
step, and the request subsequently sent to the oracle contains zero
premise-labelled STEP lines. -/
theorem omitted_premise_line_not_rejected :
    call_llm_steps [RawStep.mk (some "Q") (some "X")] = Except.ok [ProofStep.mk "Q" "X"] ∧
    call_proof_checker_payload ["P"] "Q" [ProofStep.mk "Q" "X"] =
      "CONCLUSION|Q\nPREMISE|P\nSTEP|Q||X\n" :=
  ⟨by rfl, by rfl⟩

/-- C7 (amended): the generation adapter performs no premise-alignment
check at all: whenever every proof_steps item carries a formula, it
returns exactly those steps in order, with a missing rule defaulting to
the empty string, independent of the premises; it injects nothing and has
no premise-mismatch failure, leaving premise alignment to the oracle. -/
theorem call_llm_maps_steps_verbatim (items : List RawStep)
    (h : items.all (fun item => item.formula.isSome) = true) :
    call_llm_steps items =
      Except.ok (items.map (fun item => ProofStep.mk (item.formula.getD "") (item.rule.getD ""))) := by
  induction items with
  | nil => rfl
  | cons x xs ih =>
    rw [List.all_cons, Bool.and_eq_true] at h
    obtain ⟨f, hf⟩ := Option.isSome_iff_exists.mp h.1
    simp only [call_llm_steps, List.mapM_cons] at ih ⊢
    rw [hf, ih h.2]
    simp [hf]
    rfl

/-- C7 amended witness: a two-item response in which the first item lacks
a rule maps verbatim, with the missing rule defaulting to the empty
string. -/
theorem call_llm_maps_steps_verbatim_witness :
    ([RawStep.mk (some "P") none, RawStep.mk (some "Q") (some "→e 1,2")].all
      (fun item => item.formula.isSome)) = true ∧
    call_llm_steps [RawStep.mk (some "P") none, RawStep.mk (some "Q") (some "→e 1,2")] =
      Except.ok [ProofStep.mk "P" "", ProofStep.mk "Q" "→e 1,2"] :=
  ⟨by decide,
    call_llm_maps_steps_verbatim
      [RawStep.mk (some "P") none, RawStep.mk (some "Q") (some "→e 1,2")] (by decide)⟩

/-- C8: the generation backend call does not wait with the configured
request-timeout value: the network request is made with the literal
timeout 120, while the configured REQUEST_TIMEOUT is the environment
override when set and 180 by default, so the value actually used differs
from the configured one both by default and under an override. -/
theorem urlopen_timeout_ignores_request_timeout :
    call_llm_urlopen_timeout = 120 ∧
    REQUEST_TIMEOUT none = 180 ∧
    REQUEST_TIMEOUT (some 60) = 60 ∧
    call_llm_urlopen_timeout ≠ REQUEST_TIMEOUT none ∧
    call_llm_urlopen_timeout ≠ REQUEST_TIMEOUT (some 60) := by
  refine ⟨rfl, rfl, rfl, ?_, ?_⟩ <;> norm_num [call_llm_urlopen_timeout, REQUEST_TIMEOUT]

/-- C9: constructing a ProofStep from a raw payload item fails with the
missing-key error exactly when the required formula field is absent, while
a missing rule field does not fail and defaults to the empty string; a
present rule is taken verbatim. -/
theorem proof_step_requires_formula_defaults_rule :
    (∀ r : Option String, parse_step (RawStep.mk none r) =
      Except.error (DriverError.keyError "formula")) ∧
    (∀ f : String, parse_step (RawStep.mk (some f) none) = Except.ok (ProofStep.mk f "")) ∧
    (∀ f r : String, parse_step (RawStep.mk (some f) (some r)) = Except.ok (ProofStep.mk f r)) :=
  ⟨fun _ => rfl, fun _ => rfl, fun _ _ => rfl⟩

/-- C10: the fixture (dry-run, standard-input) path and the
generation-backend path map any proof_steps payload to identical ProofStep
sequences: the two input modes apply the same per-item transformation and
are observationally equivalent for equal payloads. -/
theorem dry_run_and_llm_step_mapping_agree :
    ∀ proof_steps : List RawStep,
      call_llm_steps proof_steps = load_steps_from_stdin_steps proof_steps ∧
      call_llm_steps proof_steps = proof_steps.mapM parse_step ∧
      load_steps_from_stdin_steps proof_steps = proof_steps.mapM parse_step :=
  fun _ => ⟨rfl, rfl, rfl⟩
